import Mathlib

/-!
Formal model of `web.py`, the Streamlit presentation shell of the PODAI
chatbot dashboard.

Modelling conventions:
- `st.session_state` is a record of optional fields: `none` means the key
  is absent from the session state, `some v` that the key is present with
  value `v`.  The Python value `None` stored under a present key is
  modelled by an inner `Option` (so `connection_status = some none` means
  the key exists and holds Python `None`).
- `datetime.now()` is an explicit `now : Int` argument, in seconds;
  `timedelta(hours=2)` is the constant `twoHours = 7200`.
- Reading an absent session key raises `KeyError` in Python; this is
  modelled by returning `Except.error` from the operation.
- Chat-history entries and chatbot instances are abstracted to `Nat`.
- The module-level flag `CHATBOT_AVAILABLE` is an explicit `avail : Bool`
  argument; the external `connect_to_milvus()` call and the `RnDChatbot()`
  constructor are explicit `Except String _` arguments describing whether
  the external call returned a value or raised.
-/

/-- Two hours, in seconds: `timedelta(hours=2)`. -/
def twoHours : Int := 7200

/-- The maximum chat-history length kept by `cleanup_old_data`
(`max_history = 50` in `web.py`). -/
def maxHistory : Nat := 50

/-- The session-state keys that `web.py` creates and uses. -/
inductive SKey where
  | app_initialized
  | last_connection_check
  | connection_status
  | chatbot_initialized
  | chatbot
  | chat_history
  | chatbot_loading
  | page_load_count
  | last_activity
deriving DecidableEq, Repr

/-- Session state of `web.py`: each field is a key of `st.session_state`,
with `none` meaning the key is absent. -/
structure SessionState where
  app_initialized : Option Bool
  last_connection_check : Option (Option Int)
  connection_status : Option (Option Bool)
  chatbot_initialized : Option Bool
  chatbot : Option (Option Nat)
  chat_history : Option (List Nat)
  chatbot_loading : Option Bool
  page_load_count : Option Int
  last_activity : Option Int
deriving DecidableEq, Repr

/-- The session state with no keys at all (a fresh browser session, or
the state right after every key has been deleted). -/
def emptySessionState : SessionState :=
  ⟨none, none, none, none, none, none, none, none, none⟩

/-- Whether a given key is present in the session state
(`key in st.session_state`). -/
def SessionState.hasKey (s : SessionState) : SKey → Bool
  | .app_initialized => s.app_initialized.isSome
  | .last_connection_check => s.last_connection_check.isSome
  | .connection_status => s.connection_status.isSome
  | .chatbot_initialized => s.chatbot_initialized.isSome
  | .chatbot => s.chatbot.isSome
  | .chat_history => s.chat_history.isSome
  | .chatbot_loading => s.chatbot_loading.isSome
  | .page_load_count => s.page_load_count.isSome
  | .last_activity => s.last_activity.isSome

/-- Deleting one key from the session state
(`del st.session_state[key]`). -/
def SessionState.deleteKey (s : SessionState) : SKey → SessionState
  | .app_initialized => { s with app_initialized := none }
  | .last_connection_check => { s with last_connection_check := none }
  | .connection_status => { s with connection_status := none }
  | .chatbot_initialized => { s with chatbot_initialized := none }
  | .chatbot => { s with chatbot := none }
  | .chat_history => { s with chat_history := none }
  | .chatbot_loading => { s with chatbot_loading := none }
  | .page_load_count => { s with page_load_count := none }
  | .last_activity => { s with last_activity := none }

/-- All session-state keys, in declaration order. -/
def allKeys : List SKey :=
  [.app_initialized, .last_connection_check, .connection_status,
   .chatbot_initialized, .chatbot, .chat_history, .chatbot_loading,
   .page_load_count, .last_activity]

/-- The list of keys currently present (`list(st.session_state.keys())`). -/
def SessionState.keys (s : SessionState) : List SKey :=
  allKeys.filter s.hasKey

/-- Whether every field read on the render path is present. -/
def allFieldsDefined (s : SessionState) : Bool :=
  s.app_initialized.isSome && s.last_connection_check.isSome &&
  s.connection_status.isSome && s.chatbot_initialized.isSome &&
  s.chatbot.isSome && s.chat_history.isSome && s.chatbot_loading.isSome &&
  s.page_load_count.isSome && s.last_activity.isSome

/-- Model of `get_connection_status` (web.py lines 28-34): calls
`connect_to_milvus()` inside `try`, returns its boolean result, and
returns `False` on any exception.  The behaviour of the external call is
the argument `connectResult` (`Except.error` models a raised
exception). -/
def get_connection_status (connectResult : Except String Bool) : Bool :=
  match connectResult with
  | .ok b => b
  | .error _ => false

/-- Model of `initialize_cached_chatbot` (web.py lines 38-47): when
`CHATBOT_AVAILABLE`, calls `RnDChatbot()` inside `try` and returns the
instance, or `None` when the constructor raises; when the import failed
it returns `None` without touching the constructor.  The constructor's
behaviour is the argument `ctor`. -/
def initialize_cached_chatbot (avail : Bool) (ctor : Except String Nat) :
    Option Nat :=
  if avail then
    match ctor with
    | .ok c => some c
    | .error _ => none
  else none

/-- Model of `initialize_session_state` (web.py lines 72-92): three
guarded key-creation blocks, then `page_load_count += 1` and
`last_activity = datetime.now()`.  The `+=` reads `page_load_count`;
reading an absent key would raise, hence the `Except`. -/
def initialize_session_state (now : Int) (s : SessionState) :
    Except String SessionState :=
  let s1 := if s.app_initialized.isSome then s else
    { s with app_initialized := some true,
             last_connection_check := some none,
             connection_status := some none }
  let s2 := if s1.chatbot_initialized.isSome then s1 else
    { s1 with chatbot_initialized := some false,
              chatbot := some none,
              chat_history := some [],
              chatbot_loading := some false }
  let s3 := if s2.page_load_count.isSome then s2 else
    { s2 with page_load_count := some 0, last_activity := some now }
  match s3.page_load_count with
  | none => .error "KeyError: page_load_count"
  | some n => .ok { s3 with page_load_count := some (n + 1),
                            last_activity := some now }

/-- Model of `setup_chatbot_optimized` (web.py lines 97-107).  When the
chatbot import failed it reads `page_load_count` (for the one-time
warning) and returns `False`.  Otherwise it evaluates the short-circuit
condition `not chatbot_initialized and not chatbot_loading`, sets
`chatbot_loading = True` when both are falsy, and returns the value of
`chatbot_initialized`.  Returns the updated state paired with the
returned boolean. -/
def setup_chatbot_optimized (avail : Bool) (s : SessionState) :
    Except String (SessionState × Bool) :=
  if avail then
    match s.chatbot_initialized with
    | none => .error "KeyError: chatbot_initialized"
    | some ci =>
      if ci then .ok (s, true)
      else
        match s.chatbot_loading with
        | none => .error "KeyError: chatbot_loading"
        | some cl =>
          let s' := if cl then s else { s with chatbot_loading := some true }
          .ok (s', false)
  else
    match s.page_load_count with
    | none => .error "KeyError: page_load_count"
    | some _ => .ok (s, false)

/-- Model of `cleanup_old_data` (web.py lines 158-168): truncates
`chat_history` to its last `max_history = 50` entries when strictly
longer, then resets `last_connection_check` and `connection_status` to
Python `None` when `last_activity < now - 2 hours`. -/
def cleanup_old_data (now : Int) (s : SessionState) :
    Except String SessionState :=
  match s.chat_history with
  | none => .error "KeyError: chat_history"
  | some hist =>
    let s1 := if maxHistory < hist.length then
        { s with chat_history := some (hist.drop (hist.length - maxHistory)) }
      else s
    match s1.last_activity with
    | none => .error "KeyError: last_activity"
    | some la =>
      if la < now - twoHours then
        .ok { s1 with last_connection_check := some none,
                      connection_status := some none }
      else .ok s1

/-- One state-mutating operation of `web.py`, for stating trace
properties over sequences of operations. -/
inductive Step where
  | sessionInit
  | chatbotSetup (avail : Bool)
  | cleanup
deriving DecidableEq, Repr

/-- Apply one operation of `web.py` to a session state at clock time
`now`, discarding the boolean result of `setup_chatbot_optimized`. -/
def applyStep (now : Int) : Step → SessionState → Except String SessionState
  | .sessionInit, s => initialize_session_state now s
  | .chatbotSetup avail, s =>
    (setup_chatbot_optimized avail s).map Prod.fst
  | .cleanup, s => cleanup_old_data now s

namespace Web

/-- Model of `main` (web.py lines 124-153) as a state transformer:
initialise session state, set up the chatbot, render the chat interface,
clean up old data.  The external `create_chatbot_interface()` (defined
outside this file) consumes and mutates the session state; it is the
argument `render`.  Page configuration, CSS and header rendering have no
effect on the modelled state. -/
def main (render : SessionState → SessionState) (now : Int) (avail : Bool)
    (s : SessionState) : Except String SessionState := do
  let s1 ← initialize_session_state now s
  let s2 ← setup_chatbot_optimized avail s1
  cleanup_old_data now (render s2.1)

end Web

/-- The text of the error banner before the interpolated exception text
(web.py lines 178-181). -/
def errMsgPre : String :=
  "❌ **Đã xảy ra lỗi ứng dụng:**\n\n`"

/-- The text of the error banner after the interpolated exception text:
the generic remediation steps (web.py lines 181-187). -/
def errMsgPost : String :=
  "`\n\n**Khắc phục:**\n1. Refresh trang (F5)\n2. Xóa cache trình duyệt\n3. Kiểm tra kết nối mạng"

/-- The full user-facing error message rendered for exception text `e`:
`st.error(f"... {str(e)} ...")`. -/
def errorMessage (e : String) : String := errMsgPre ++ e ++ errMsgPost

/-- Outcome of `handle_app_errors`: the final session state, the error
banner shown (if any), and whether `st.rerun()` was invoked. -/
structure HandlerResult where
  state : SessionState
  errorShown : Option String
  rerunForced : Bool
deriving Repr

/-- Model of `handle_app_errors` (web.py lines 173-193): runs `main()`
inside `try`; on an exception `e` (carrying the session state at the
point of the raise) it renders the error banner and, when the reset
button is clicked, deletes every session key and calls `st.rerun()`.
`mainOutcome` is the behaviour of the `main()` call; `resetClicked`
is whether the user activates the reset control. -/
def handle_app_errors (mainOutcome : Except (String × SessionState) SessionState)
    (resetClicked : Bool) : HandlerResult :=
  match mainOutcome with
  | .ok s => ⟨s, none, false⟩
  | .error (e, s) =>
    if resetClicked then
      ⟨(s.keys).foldl SessionState.deleteKey s, some (errorMessage e), true⟩
    else
      ⟨s, some (errorMessage e), false⟩

/-- A fully-populated concrete session state, used to evaluate the
operations on explicit inputs. -/
def exFull : SessionState :=
  { app_initialized := some true,
    last_connection_check := some (some 5),
    connection_status := some (some true),
    chatbot_initialized := some true,
    chatbot := some (some 1),
    chat_history := some [1, 2, 3],
    chatbot_loading := some true,
    page_load_count := some 3,
    last_activity := some 100 }

/-- A concrete session state that has been inactive for more than two
hours at clock time 10000 (its `last_activity` is 0), with a non-empty
chat history and a live chatbot flag. -/
def exStale : SessionState :=
  { app_initialized := some true,
    last_connection_check := some (some 5),
    connection_status := some (some true),
    chatbot_initialized := some true,
    chatbot := some (some 1),
    chat_history := some [1],
    chatbot_loading := some true,
    page_load_count := some 3,
    last_activity := some 0 }

/-- What `cleanup_old_data 10000` makes of `exStale`: only the two
connection fields are reset; everything else survives. -/
def exStaleAfter : SessionState :=
  { exStale with last_connection_check := some none,
                 connection_status := some none }

/-- A concrete session state whose chat history has 51 entries. -/
def exLong : SessionState :=
  { exFull with chat_history := some (List.range 51) }

/-- What `cleanup_old_data 100` makes of `exLong`: the oldest entry of
its 51-entry history is evicted. -/
def exLongAfter : SessionState :=
  { exFull with chat_history := some ((List.range 51).drop 1) }

/-- A session state in which `chatbot_initialized` is present but the
other keys of its initialization group (`chatbot`, `chat_history`,
`chatbot_loading`) are absent. -/
def exPartial : SessionState :=
  { emptySessionState with chatbot_initialized := some false }

/-- What `initialize_session_state 0` makes of `exPartial`: the
`chatbot_initialized` guard skips the whole chatbot block, so
`chat_history` stays absent. -/
def exPartialAfter : SessionState :=
  ⟨some true, some none, some none, some false, none, none, none,
   some 1, some 0⟩

/-- The key-creation blocks of `initialize_session_state` create their
keys in groups, each guarded by a single key.  This predicate says that
whenever a group's guard key is present, the rest of its group is
present too: it holds for the empty state and is preserved by every
operation of `web.py`. -/
def initGroupsConsistent (s : SessionState) : Bool :=
  (!s.app_initialized.isSome ||
    (s.last_connection_check.isSome && s.connection_status.isSome)) &&
  (!s.chatbot_initialized.isSome ||
    (s.chatbot.isSome && s.chat_history.isSome && s.chatbot_loading.isSome))

lemma hasKey_deleteKey (s : SessionState) (k k' : SKey) :
    (s.deleteKey k').hasKey k = if k = k' then false else s.hasKey k := by
  cases k <;> cases k' <;>
    simp [SessionState.deleteKey, SessionState.hasKey]

lemma hasKey_foldl_deleteKey (l : List SKey) (s : SessionState) (k : SKey)
    (h : k ∈ l ∨ s.hasKey k = false) :
    (l.foldl SessionState.deleteKey s).hasKey k = false := by
  induction l generalizing s with
  | nil =>
    rcases h with h | h
    · exact absurd h (List.not_mem_nil k)
    · simpa using h
  | cons a t ih =>
    simp only [List.foldl_cons]
    apply ih
    rcases h with h | h
    · rcases List.mem_cons.mp h with rfl | h
      · right
        rw [hasKey_deleteKey]
        simp
      · exact Or.inl h
    · right
      rw [hasKey_deleteKey]
      split
      · rfl
      · exact h

lemma hasKey_mem_keys (s : SessionState) (k : SKey) (h : s.hasKey k = true) :
    k ∈ s.keys := by
  have hk : k ∈ allKeys := by cases k <;> simp [allKeys]
  exact List.mem_filter.mpr ⟨hk, h⟩

/-- C4: `get_connection_status` never propagates an exception: when
`connect_to_milvus` raises, it returns `False`; otherwise it returns
exactly the boolean that `connect_to_milvus` returned, so the caller
observes only a boolean status. -/
theorem connection_status_is_boolean :
    (∀ e : String, get_connection_status (.error e) = false) ∧
    (∀ b : Bool, get_connection_status (.ok b) = b) :=
  ⟨fun _ => rfl, fun _ => rfl⟩

/-- C5: every exception `e` escaping `main` is caught by
`handle_app_errors` (which is a total function of the outcome, so
nothing is re-raised) and rendered as a user-facing banner consisting of
the fixed prefix, the exception text `e`, and the generic remediation
steps, whatever the session state at the raise and whether or not the
reset control is clicked. -/
theorem main_errors_rendered (e : String) (sAtError : SessionState)
    (resetClicked : Bool) :
    (handle_app_errors (.error (e, sAtError)) resetClicked).errorShown =
      some (errMsgPre ++ e ++ errMsgPost) := by
  cases resetClicked <;> rfl

/-- C3: activating the manual reset control in `handle_app_errors` after
an error deletes every key of the session state (no session key
survives) and then forces a re-render via `st.rerun()`. -/
theorem reset_clears_all_keys (e : String) (s : SessionState) :
    (∀ k : SKey,
      ((handle_app_errors (.error (e, s)) true).state).hasKey k = false) ∧
    (handle_app_errors (.error (e, s)) true).rerunForced = true := by
  refine ⟨fun k => ?_, rfl⟩
  show ((s.keys).foldl SessionState.deleteKey s).hasKey k = false
  apply hasKey_foldl_deleteKey
  by_cases hk : s.hasKey k = true
  · exact Or.inl (hasKey_mem_keys s k hk)
  · exact Or.inr (by simpa using hk)

lemma cleanup_old_data_eq (now : Int) (s : SessionState) (h : List Nat)
    (la : Int) (hh : s.chat_history = some h)
    (hla : s.last_activity = some la) :
    cleanup_old_data now s =
      .ok (if la < now - twoHours then
            { s with
              chat_history := some (if 50 < h.length then h.drop (h.length - 50) else h),
              last_connection_check := some none,
              connection_status := some none }
          else
            { s with
              chat_history := some (if 50 < h.length then h.drop (h.length - 50) else h) }) := by
  simp only [cleanup_old_data, hh, maxHistory]
  by_cases hl : 50 < h.length <;>
    by_cases hstale : la < now - twoHours <;>
      simp [hl, hstale, hla, ← hh] <;> rw [← hla]

/-- C1: after `cleanup_old_data` runs, the chat history has length at
most 50; and whenever it had more than 50 entries beforehand, the
retained entries are exactly the last 50 entries of the original list in
their original order (the evicted entries are an initial segment). -/
theorem cleanup_caps_history (now : Int) (s s' : SessionState)
    (h : List Nat) (la : Int)
    (hh : s.chat_history = some h) (hla : s.last_activity = some la)
    (hr : cleanup_old_data now s = .ok s') :
    ∃ h', s'.chat_history = some h' ∧ h'.length ≤ 50 ∧
      (50 < h.length →
        h' = h.drop (h.length - 50) ∧ h'.length = 50 ∧
        h.take (h.length - 50) ++ h' = h) := by
  rw [cleanup_old_data_eq now s h la hh hla, Except.ok.injEq] at hr
  subst hr
  refine ⟨if 50 < h.length then h.drop (h.length - 50) else h, ?_, ?_, ?_⟩
  · by_cases hstale : la < now - twoHours <;> simp [hstale]
  · by_cases hl : 50 < h.length
    · rw [if_pos hl, List.length_drop]
      omega
    · rw [if_neg hl]
      omega
  · intro hl
    rw [if_pos hl]
    exact ⟨rfl, by rw [List.length_drop]; omega, List.take_append_drop _ h⟩

/-- Witness for C1 at a concrete input: a 51-entry history at clock time
100 is truncated to its last 50 entries. -/
theorem cleanup_caps_history_witness :
    ∃ h', exLongAfter.chat_history = some h' ∧ h'.length ≤ 50 ∧
      (50 < (List.range 51).length →
        h' = (List.range 51).drop ((List.range 51).length - 50) ∧
        h'.length = 50 ∧
        (List.range 51).take ((List.range 51).length - 50) ++ h' =
          List.range 51) :=
  cleanup_caps_history 100 exLong exLongAfter (List.range 51) 100 rfl rfl rfl

/-- C2 counterexample: the session state `exStale` has been inactive for
more than two hours at clock time 10000, yet `cleanup_old_data` does not
return its fields to an uncreated/cleared state: the chat history keeps
its entry `[1]` (it is neither deleted nor reset to the initial `[]`),
and `chatbot_initialized`, `chatbot`, `chatbot_loading`,
`page_load_count` and `last_activity` all keep their old values. -/
theorem cleanup_does_not_clear_session :
    exStale.last_activity = some 0 ∧ (0 : Int) < 10000 - twoHours ∧
    cleanup_old_data 10000 exStale = .ok exStaleAfter ∧
    exStaleAfter.hasKey SKey.chat_history = true ∧
    ¬ (exStaleAfter.chat_history = none ∨
       exStaleAfter.chat_history = some []) ∧
    exStaleAfter.chat_history = some [1] ∧
    exStaleAfter.chatbot_initialized = some true ∧
    exStaleAfter.chatbot = some (some 1) ∧
    exStaleAfter.page_load_count = some 3 ∧
    exStaleAfter.last_activity = some 0 :=
  ⟨rfl, by decide, rfl, rfl, by decide, rfl, rfl, rfl, rfl, rfl⟩

/-- C2 (amended): for every session state whose `last_activity` is more
than 2 hours before the current time, `cleanup_old_data` resets only the
two connection-cache fields `last_connection_check` and
`connection_status` to Python `None` (their freshly-created values); all
other session fields keep their values: `chat_history` is exactly the
original list, truncated to its last 50 entries only when it exceeded
50, and the remaining six fields are unchanged. -/
theorem cleanup_expires_connection_fields (now : Int) (s : SessionState)
    (h : List Nat) (la : Int)
    (hh : s.chat_history = some h) (hla : s.last_activity = some la)
    (hstale : la < now - twoHours) :
    ∃ s', cleanup_old_data now s = .ok s' ∧
      s'.last_connection_check = some none ∧
      s'.connection_status = some none ∧
      s'.chat_history = some (if 50 < h.length then h.drop (h.length - 50) else h) ∧
      s'.app_initialized = s.app_initialized ∧
      s'.chatbot_initialized = s.chatbot_initialized ∧
      s'.chatbot = s.chatbot ∧
      s'.chatbot_loading = s.chatbot_loading ∧
      s'.page_load_count = s.page_load_count ∧
      s'.last_activity = s.last_activity := by
  rw [cleanup_old_data_eq now s h la hh hla]
  refine ⟨_, rfl, ?_⟩
  simp [hstale]

/-- Witness for the amended C2 at a concrete input: `exStale` at clock
time 10000. -/
theorem cleanup_expires_connection_fields_witness :
    ∃ s', cleanup_old_data 10000 exStale = .ok s' ∧
      s'.last_connection_check = some none ∧
      s'.connection_status = some none ∧
      s'.chat_history = some [1] ∧
      s'.app_initialized = exStale.app_initialized ∧
      s'.chatbot_initialized = exStale.chatbot_initialized ∧
      s'.chatbot = exStale.chatbot ∧
      s'.chatbot_loading = exStale.chatbot_loading ∧
      s'.page_load_count = exStale.page_load_count ∧
      s'.last_activity = exStale.last_activity :=
  cleanup_expires_connection_fields 10000 exStale [1] 0 rfl rfl (by decide)

/-- C9: `cleanup_old_data` touches no session fields other than
`chat_history`, `last_connection_check` and `connection_status`; the
chatbot handle, `chatbot_initialized`, `chatbot_loading`,
`page_load_count`, `last_activity` and `app_initialized` are unchanged
even after 2 hours of inactivity.  And when the history has at most 50
entries (the guard is strict, so exactly 50 is kept) and `last_activity`
is within the past 2 hours, `cleanup_old_data` changes nothing at
all. -/
theorem cleanup_frame (now : Int) (s s' : SessionState) (h : List Nat)
    (la : Int)
    (hh : s.chat_history = some h) (hla : s.last_activity = some la)
    (hr : cleanup_old_data now s = .ok s') :
    (s'.app_initialized = s.app_initialized ∧
     s'.chatbot_initialized = s.chatbot_initialized ∧
     s'.chatbot = s.chatbot ∧
     s'.chatbot_loading = s.chatbot_loading ∧
     s'.page_load_count = s.page_load_count ∧
     s'.last_activity = s.last_activity) ∧
    (h.length ≤ 50 → ¬ la < now - twoHours → s' = s) := by
  rw [cleanup_old_data_eq now s h la hh hla, Except.ok.injEq] at hr
  subst hr
  constructor
  · by_cases hstale : la < now - twoHours <;> simp [hstale]
  · intro hlen hstale
    rw [if_neg hstale]
    have hnl : ¬ 50 < h.length := by omega
    rw [if_neg hnl, ← hh]

/-- Witness for C9 at a concrete input: `exFull` (3-entry history,
recent activity) at clock time 100 passes through `cleanup_old_data`
completely unchanged. -/
theorem cleanup_frame_witness :
    ((exFull.app_initialized = exFull.app_initialized ∧
      exFull.chatbot_initialized = exFull.chatbot_initialized ∧
      exFull.chatbot = exFull.chatbot ∧
      exFull.chatbot_loading = exFull.chatbot_loading ∧
      exFull.page_load_count = exFull.page_load_count ∧
      exFull.last_activity = exFull.last_activity) ∧
     (([1, 2, 3] : List Nat).length ≤ 50 → ¬ (100 : Int) < 100 - twoHours →
       exFull = exFull)) :=
  cleanup_frame 100 exFull exFull [1, 2, 3] 100 rfl rfl rfl

lemma setup_cases (avail : Bool) (s : SessionState) (r : SessionState × Bool)
    (hr : setup_chatbot_optimized avail s = .ok r) :
    (r.1 = s ∨ r.1 = { s with chatbot_loading := some true }) ∧
    (avail = true → s.chatbot_initialized = some r.2) ∧
    (avail = false → r.2 = false) := by
  cases avail with
  | false =>
    cases hplc : s.page_load_count with
    | none =>
      have heval : setup_chatbot_optimized false s =
          .error "KeyError: page_load_count" := by
        simp [setup_chatbot_optimized, hplc]
      rw [heval] at hr
      exact absurd hr (by simp)
    | some p =>
      have heval : setup_chatbot_optimized false s = .ok (s, false) := by
        simp [setup_chatbot_optimized, hplc]
      rw [heval] at hr
      have h2 := Except.ok.inj hr
      subst h2
      exact ⟨Or.inl rfl, fun h => Bool.noConfusion h, fun _ => rfl⟩
  | true =>
    cases hci : s.chatbot_initialized with
    | none =>
      have heval : setup_chatbot_optimized true s =
          .error "KeyError: chatbot_initialized" := by
        simp [setup_chatbot_optimized, hci]
      rw [heval] at hr
      exact absurd hr (by simp)
    | some ci =>
      cases ci with
      | true =>
        have heval : setup_chatbot_optimized true s = .ok (s, true) := by
          simp [setup_chatbot_optimized, hci]
        rw [heval] at hr
        have h2 := Except.ok.inj hr
        subst h2
        exact ⟨Or.inl rfl, fun _ => rfl, fun h => Bool.noConfusion h⟩
      | false =>
        cases hcl : s.chatbot_loading with
        | none =>
          have heval : setup_chatbot_optimized true s =
              .error "KeyError: chatbot_loading" := by
            simp [setup_chatbot_optimized, hci, hcl]
          rw [heval] at hr
          exact absurd hr (by simp)
        | some cl =>
          cases cl with
          | true =>
            have heval : setup_chatbot_optimized true s = .ok (s, false) := by
              simp [setup_chatbot_optimized, hci, hcl]
            rw [heval] at hr
            have h2 := Except.ok.inj hr
            subst h2
            exact ⟨Or.inl rfl, fun _ => rfl, fun h => Bool.noConfusion h⟩
          | false =>
            have heval : setup_chatbot_optimized true s =
                .ok ({ s with chatbot_loading := some true }, false) := by
              simp [setup_chatbot_optimized, hci, hcl]
            rw [heval] at hr
            have h2 := Except.ok.inj hr
            subst h2
            refine ⟨Or.inr ?_, fun _ => rfl, fun h => Bool.noConfusion h⟩
            rw [hci]

lemma init_fields (now : Int) (s s' : SessionState)
    (hr : initialize_session_state now s = .ok s') :
    s'.last_activity = some now ∧
    (s.chatbot_initialized.isSome = true →
      s'.chatbot_initialized = s.chatbot_initialized ∧
      s'.chatbot = s.chatbot ∧
      s'.chatbot_loading = s.chatbot_loading ∧
      s'.chat_history = s.chat_history) ∧
    (s.app_initialized.isSome = true →
      s'.app_initialized = s.app_initialized ∧
      s'.last_connection_check = s.last_connection_check ∧
      s'.connection_status = s.connection_status) ∧
    s'.page_load_count.isSome = true := by
  rcases s with ⟨a, lcc, cs, ci, cb, hist, cl, plc, la⟩
  cases a <;> cases ci <;> cases plc <;>
    (have h2 := Except.ok.inj hr
     subst h2
     refine ⟨rfl, fun h => ?_, fun h2 => ?_, rfl⟩ <;>
       first
         | exact Bool.noConfusion h
         | exact Bool.noConfusion h2
         | exact ⟨rfl, rfl, rfl, rfl⟩
         | exact ⟨rfl, rfl, rfl⟩)

/-- C8: the `last_activity` timestamp is monotonically non-decreasing:
for each of the three state operations of `web.py`, applied at a clock
time `now` at least the recorded timestamp `t` (the clock itself never
goes backwards, and `t` was recorded at an earlier clock reading), the
timestamp after the step is at least the timestamp before the step:
`initialize_session_state` sets it to `now ≥ t`, and the other two
operations leave it unchanged. -/
theorem last_activity_monotone (now : Int) (step : Step)
    (s s' : SessionState) (t : Int)
    (hla : s.last_activity = some t) (hclock : t ≤ now)
    (hr : applyStep now step s = .ok s') :
    ∃ t', s'.last_activity = some t' ∧ t ≤ t' := by
  cases step with
  | sessionInit =>
    exact ⟨now, (init_fields now s s' hr).1, hclock⟩
  | chatbotSetup avail =>
    refine ⟨t, ?_, le_refl t⟩
    cases hsr : setup_chatbot_optimized avail s with
    | error e =>
      simp only [applyStep] at hr
      rw [hsr] at hr
      exact absurd hr (by simp [Except.map])
    | ok r =>
      simp only [applyStep] at hr
      rw [hsr] at hr
      simp only [Except.map] at hr
      have h2 := Except.ok.inj hr
      subst h2
      rcases (setup_cases avail s r hsr).1 with h1 | h1 <;> rw [h1] <;>
        exact hla
  | cleanup =>
    refine ⟨t, ?_, le_refl t⟩
    cases hh : s.chat_history with
    | none =>
      simp only [applyStep] at hr
      simp [cleanup_old_data, hh] at hr
    | some h =>
      simp only [applyStep] at hr
      rw [cleanup_old_data_eq now s h t hh hla] at hr
      have h2 := Except.ok.inj hr
      subst h2
      by_cases hstale : t < now - twoHours <;> simp [hstale, hla]

/-- Witness for C8 at a concrete input: `cleanup_old_data` at clock time
100 on `exFull` (whose timestamp is 100) keeps the timestamp at 100. -/
theorem last_activity_monotone_witness :
    ∃ t', exFull.last_activity = some t' ∧ (100 : Int) ≤ t' :=
  last_activity_monotone 100 Step.cleanup exFull exFull 100 rfl
    (le_refl 100) rfl

/-- C6: chatbot construction is guarded by the availability flag: when
the import failed, `initialize_cached_chatbot` returns `None` whatever
the constructor would do (the quantification over `ctor` shows the
constructor is never consulted) and `setup_chatbot_optimized` returns
`False`; and when the flag is up but `RnDChatbot()` raises,
`initialize_cached_chatbot` swallows the exception and returns
`None`. -/
theorem chatbot_construction_guarded :
    (∀ ctor : Except String Nat, initialize_cached_chatbot false ctor = none) ∧
    (∀ e : String, initialize_cached_chatbot true (.error e) = none) ∧
    (∀ (s : SessionState) (r : SessionState × Bool),
      setup_chatbot_optimized false s = .ok r → r.2 = false) :=
  ⟨fun _ => rfl, fun _ => rfl,
   fun s r hr => (setup_cases false s r hr).2.2 rfl⟩

/-- Witness for C6 at concrete inputs: a working constructor is ignored
when the flag is down, a raising constructor yields `None` when the flag
is up, and `setup_chatbot_optimized` returns `False` on `exFull` when
the flag is down. -/
theorem chatbot_construction_guarded_witness :
    initialize_cached_chatbot false (.ok 7) = none ∧
    initialize_cached_chatbot true (.error "init failed") = none ∧
    (exFull, false).2 = false :=
  ⟨chatbot_construction_guarded.1 (.ok 7),
   chatbot_construction_guarded.2.1 "init failed",
   chatbot_construction_guarded.2.2 exFull (exFull, false) rfl⟩

/-- C10: `setup_chatbot_optimized` never constructs a chatbot and never
sets `chatbot_initialized` to `True`: it leaves the `chatbot` handle and
`chatbot_initialized` untouched and returns the pre-existing value of
`chatbot_initialized` (or `False` when the availability flag is down;
its definition takes no constructor argument at all, so it cannot call
`RnDChatbot` or `initialize_cached_chatbot`).  Moreover, once
`chatbot_loading` is `True` (which entails `chatbot_initialized` is
present, since both keys are created together), no state operation of
this file resets `chatbot_loading` to `False` or assigns any chatbot
into the session state: the `chatbot` field is preserved exactly.  (The
reset control deletes the keys outright rather than setting them to
`False`.) -/
theorem setup_never_constructs :
    (∀ (avail : Bool) (s : SessionState) (r : SessionState × Bool),
      setup_chatbot_optimized avail s = .ok r →
      r.1.chatbot = s.chatbot ∧
      r.1.chatbot_initialized = s.chatbot_initialized ∧
      (avail = true → s.chatbot_initialized = some r.2) ∧
      (avail = false → r.2 = false)) ∧
    (∀ (now : Int) (step : Step) (s s' : SessionState),
      s.chatbot_initialized.isSome = true →
      s.chatbot_loading = some true →
      applyStep now step s = .ok s' →
      s'.chatbot_loading = some true ∧ s'.chatbot = s.chatbot) := by
  constructor
  · intro avail s r hr
    obtain ⟨h1, h2, h3⟩ := setup_cases avail s r hr
    rcases h1 with h1 | h1 <;> rw [h1] <;> exact ⟨rfl, rfl, h2, h3⟩
  · intro now step s s' hci hcl hr
    cases step with
    | sessionInit =>
      obtain ⟨-, h2, -, -⟩ := init_fields now s s' hr
      obtain ⟨hcieq, hcbeq, hcleq, -⟩ := h2 hci
      exact ⟨by rw [hcleq, hcl], hcbeq⟩
    | chatbotSetup avail =>
      cases hsr : setup_chatbot_optimized avail s with
      | error e =>
        simp only [applyStep] at hr
        rw [hsr] at hr
        exact absurd hr (by simp [Except.map])
      | ok r =>
        simp only [applyStep] at hr
        rw [hsr] at hr
        simp only [Except.map] at hr
        have h2 := Except.ok.inj hr
        subst h2
        rcases (setup_cases avail s r hsr).1 with h1 | h1 <;> rw [h1]
        · exact ⟨hcl, rfl⟩
        · exact ⟨rfl, rfl⟩
    | cleanup =>
      cases hh : s.chat_history with
      | none =>
        simp only [applyStep] at hr
        simp [cleanup_old_data, hh] at hr
      | some h =>
        cases hla : s.last_activity with
        | none =>
          simp only [applyStep] at hr
          by_cases hlen : maxHistory < h.length <;>
            simp [cleanup_old_data, hh, hla, hlen] at hr
        | some la =>
          simp only [applyStep] at hr
          rw [cleanup_old_data_eq now s h la hh hla] at hr
          have h2 := Except.ok.inj hr
          subst h2
          by_cases hstale : la < now - twoHours <;> simp [hstale, hcl]

/-- Witness for C10 at concrete inputs: `setup_chatbot_optimized` on
`exFull` (already initialized) and `cleanup_old_data` on `exFull`
(whose `chatbot_loading` is `True`). -/
theorem setup_never_constructs_witness :
    (exFull.chatbot = exFull.chatbot ∧
     exFull.chatbot_initialized = exFull.chatbot_initialized ∧
     (true = true → exFull.chatbot_initialized = some true) ∧
     (true = false → true = false)) ∧
    (exFull.chatbot_loading = some true ∧ exFull.chatbot = exFull.chatbot) :=
  ⟨setup_never_constructs.1 true exFull (exFull, true) rfl,
   setup_never_constructs.2 100 Step.cleanup exFull exFull rfl rfl rfl⟩

lemma init_defines_all (now : Int) (s : SessionState)
    (hs : initGroupsConsistent s = true) :
    ∃ s1, initialize_session_state now s = .ok s1 ∧
      allFieldsDefined s1 = true := by
  rcases s with ⟨a, lcc, cs, ci, cb, hist, cl, plc, la⟩
  cases a <;> cases lcc <;> cases cs <;> cases ci <;> cases cb <;>
    cases hist <;> cases cl <;> cases plc <;>
      first
        | exact Bool.noConfusion hs
        | exact ⟨_, rfl, rfl⟩

lemma setup_defines_all (avail : Bool) (s : SessionState)
    (hs : allFieldsDefined s = true) :
    ∃ r, setup_chatbot_optimized avail s = .ok r ∧
      allFieldsDefined r.1 = true := by
  have hs' := hs
  simp only [allFieldsDefined, Bool.and_eq_true, and_assoc,
    Option.isSome_iff_exists] at hs
  obtain ⟨⟨a, ha⟩, ⟨lcc, hlcc⟩, ⟨cs, hcs⟩, ⟨ci, hci⟩, ⟨cb, hcb⟩,
    ⟨hist, hhist⟩, ⟨cl, hcl⟩, ⟨plc, hplc⟩, ⟨la, hla⟩⟩ := hs
  cases avail with
  | false => exact ⟨(s, false), by simp [setup_chatbot_optimized, hplc], hs'⟩
  | true =>
    cases ci with
    | true => exact ⟨(s, true), by simp [setup_chatbot_optimized, hci], hs'⟩
    | false =>
      cases cl with
      | true =>
        exact ⟨(s, false), by simp [setup_chatbot_optimized, hci, hcl], hs'⟩
      | false =>
        refine ⟨({ s with chatbot_loading := some true }, false),
          by simp [setup_chatbot_optimized, hci, hcl], ?_⟩
        simp [allFieldsDefined, ha, hlcc, hcs, hci, hcb, hhist, hplc, hla]

lemma cleanup_defines_all (now : Int) (s : SessionState)
    (hs : allFieldsDefined s = true) :
    ∃ s', cleanup_old_data now s = .ok s' ∧ allFieldsDefined s' = true := by
  simp only [allFieldsDefined, Bool.and_eq_true, and_assoc,
    Option.isSome_iff_exists] at hs
  obtain ⟨⟨a, ha⟩, ⟨lcc, hlcc⟩, ⟨cs, hcs⟩, ⟨ci, hci⟩, ⟨cb, hcb⟩,
    ⟨hist, hhist⟩, ⟨cl, hcl⟩, ⟨plc, hplc⟩, ⟨la, hla⟩⟩ := hs
  refine ⟨_, cleanup_old_data_eq now s hist la hhist hla, ?_⟩
  by_cases hstale : la < now - twoHours <;>
    simp [hstale, allFieldsDefined, ha, hlcc, hcs, hci, hcb, hhist, hcl,
      hplc, hla]

lemma allFieldsDefined_consistent (s : SessionState)
    (hs : allFieldsDefined s = true) : initGroupsConsistent s = true := by
  simp only [allFieldsDefined, Bool.and_eq_true, and_assoc] at hs
  obtain ⟨ha, hlcc, hcs, hci, hcb, hhist, hcl, hplc, hla⟩ := hs
  simp [initGroupsConsistent, ha, hlcc, hcs, hci, hcb, hhist, hcl]

lemma step_preserves_consistency (now : Int) (step : Step)
    (s s' : SessionState) (hs : initGroupsConsistent s = true)
    (hr : applyStep now step s = .ok s') :
    initGroupsConsistent s' = true := by
  cases step with
  | sessionInit =>
    obtain ⟨s1, hok, hdef⟩ := init_defines_all now s hs
    simp only [applyStep] at hr
    rw [hok] at hr
    have h2 := Except.ok.inj hr
    subst h2
    exact allFieldsDefined_consistent s1 hdef
  | chatbotSetup avail =>
    cases hsr : setup_chatbot_optimized avail s with
    | error e =>
      simp only [applyStep] at hr
      rw [hsr] at hr
      exact absurd hr (by simp [Except.map])
    | ok r =>
      simp only [applyStep] at hr
      rw [hsr] at hr
      simp only [Except.map] at hr
      have h2 := Except.ok.inj hr
      subst h2
      rcases (setup_cases avail s r hsr).1 with h1 | h1 <;> rw [h1]
      · exact hs
      · rcases s with ⟨a, lcc, cs, ci, cb, hist, cl, plc, la⟩
        cases a <;> cases lcc <;> cases cs <;> cases ci <;> cases cb <;>
          cases hist <;>
            first
              | exact Bool.noConfusion hs
              | rfl
              | exact hs
  | cleanup =>
    rcases s with ⟨a, lcc, cs, ci, cb, hist, cl, plc, la⟩
    cases hist with
    | none =>
      simp only [applyStep] at hr
      simp [cleanup_old_data] at hr
    | some h =>
      cases la with
      | none =>
        simp only [applyStep] at hr
        by_cases hlen : maxHistory < h.length <;>
          simp [cleanup_old_data, hlen] at hr
      | some t =>
        simp only [applyStep] at hr
        rw [cleanup_old_data_eq now _ h t rfl rfl] at hr
        have h2 := Except.ok.inj hr
        subst h2
        by_cases hstale : t < now - twoHours <;>
          simp only [hstale, if_true, if_false, ite_true, ite_false] <;>
            cases a <;> cases lcc <;> cases cs <;> cases ci <;> cases cb <;>
              first
                | exact Bool.noConfusion hs
                | rfl
                | exact hs

/-- C7 counterexample: the session state `exPartial` carries only the
key `chatbot_initialized` (such a state is expressible in the session
store, and the claim quantifies over every session state).  After
`initialize_session_state` returns, the guard on `chatbot_initialized`
has skipped the whole chatbot block, so `chat_history`,`chatbot` and
`chatbot_loading` are still missing: the later reads do hit a missing
key — `setup_chatbot_optimized` (with the chatbot available) raises on
`chatbot_loading`, and `cleanup_old_data` (hence `main`) raises on
`chat_history`. -/
theorem init_misses_partial_group :
    initialize_session_state 0 exPartial = .ok exPartialAfter ∧
    exPartialAfter.hasKey SKey.chat_history = false ∧
    allFieldsDefined exPartialAfter = false ∧
    cleanup_old_data 0 exPartialAfter = .error "KeyError: chat_history" ∧
    setup_chatbot_optimized true exPartialAfter =
      .error "KeyError: chatbot_loading" ∧
    Web.main id 0 false exPartial = .error "KeyError: chat_history" :=
  ⟨rfl, rfl, rfl, rfl, rfl, rfl⟩

/-- C7 (amended): for every session state in which each key-creation
group of `initialize_session_state` is consistent (a group's guard key
is present only if the rest of its group is) — which covers the empty
state and is preserved by every operation of `web.py` — the whole render
path `main` succeeds: after `initialize_session_state` every session
field read later is defined, and no read in `main`,
`setup_chatbot_optimized` or `cleanup_old_data` hits a missing key.
`render` stands for the external `create_chatbot_interface`, assumed to
keep the fields defined. -/
theorem session_fields_initialized :
    (∀ (render : SessionState → SessionState),
      (∀ u, allFieldsDefined u = true → allFieldsDefined (render u) = true) →
      ∀ (now : Int) (avail : Bool) (s : SessionState),
      initGroupsConsistent s = true →
      ∃ s', Web.main render now avail s = .ok s' ∧
        allFieldsDefined s' = true) ∧
    initGroupsConsistent emptySessionState = true ∧
    (∀ (now : Int) (step : Step) (s s' : SessionState),
      initGroupsConsistent s = true → applyStep now step s = .ok s' →
      initGroupsConsistent s' = true) := by
  refine ⟨?_, rfl, step_preserves_consistency⟩
  intro render hrender now avail s hs
  obtain ⟨s1, h1, hd1⟩ := init_defines_all now s hs
  obtain ⟨r, h2, hd2⟩ := setup_defines_all avail s1 hd1
  obtain ⟨s3, h3, hd3⟩ := cleanup_defines_all now (render r.1) (hrender r.1 hd2)
  refine ⟨s3, ?_, hd3⟩
  unfold Web.main
  rw [h1]
  simp only [bind, Except.bind]
  rw [h2]
  exact h3

/-- Witness for the amended C7 at concrete inputs: from the empty
session state (with the identity render step), `main` succeeds and
leaves every field defined; and the fully-populated `exFull` stays
group-consistent through `cleanup_old_data`. -/
theorem session_fields_initialized_witness :
    (∃ s', Web.main id 0 true emptySessionState = .ok s' ∧
      allFieldsDefined s' = true) ∧
    initGroupsConsistent exFull = true :=
  ⟨session_fields_initialized.1 id (fun _ h => h) 0 true emptySessionState
    rfl,
   session_fields_initialized.2.2 100 Step.cleanup exFull exFull rfl rfl⟩
